import Mathlib

/-!
Shallow embedding of the T-maze environment core (src/env/tmaze.py):
goal selection at reset, the per-step reward/termination logic, and the
panoramic-observation stitching of the render method.  Machine-level
numerics are modelled over the rationals; the physics collaborator
(pybullet) is abstracted by passing the resulting vehicle position and
collision flag into the step model, and the four camera captures into
the render model, exactly at the interface the Python code reads them.
-/

namespace TMaze

/-- Global geometric scale factor: `self.zoom_coef = 2.0` in `__init__`. -/
def zoom_coef : ℚ := 2

/-- A planar position, as the first two entries of a pybullet position. -/
structure Vec2 where
  x : ℚ
  y : ℚ
deriving DecidableEq

/-- The three admissible values of `target_setting` (asserted in `__init__`). -/
inductive TargetSetting where
  | either
  | switching
  | random
deriving DecidableEq

/-- The observation mode `self.obs`: the code branches on `== 'vision'`,
`== 'both'`, and a final else branch (proprioceptive). -/
inductive ObsMode where
  | vision
  | both
  | proprio
deriving DecidableEq

/-- `self.goal_position` is either a single `[x, y]` pair (switching, random,
or explicit goal index) or a list of two such pairs (target setting either). -/
inductive GoalSet where
  | single (g : Vec2)
  | pair (g0 g1 : Vec2)
deriving DecidableEq

/-- `generate_goal`: canonical alcove coordinates `[-3.25, 2.75]` and
`[3.25, 2.75]`, scaled componentwise by `zoom_coef`, indexed by `tmp`. -/
def generate_goal (i : Fin 2) : Vec2 :=
  if i = 0 then ⟨-3.25 * zoom_coef, 2.75 * zoom_coef⟩
  else ⟨3.25 * zoom_coef, 2.75 * zoom_coef⟩

/-- The goal-selection logic of `reset` (lines 263-270): an explicit
`goal_pos` wins; otherwise `random` draws an index, `switching` negates the
x coordinate of the stored previous goal position (an attribute error if it
was never assigned, a type error if it is a list of lists), and `either`
activates both canonical goals.  `rngDraw` stands for the value of
`self.np_random.integers(0, 2)`. -/
def selectGoal (setting : TargetSetting) (goal_pos : Option (Fin 2)) (rngDraw : Fin 2)
    (prev : Option GoalSet) : Except String GoalSet :=
  match goal_pos with
  | some i => .ok (.single (generate_goal i))
  | none =>
    match setting with
    | .random => .ok (.single (generate_goal rngDraw))
    | .switching =>
      match prev with
      | none => .error "AttributeError: TMazeEnv object has no attribute goal_position"
      | some (.single g) => .ok (.single ⟨-g.x, g.y⟩)
      | some (.pair _ _) => .error "TypeError: bad operand type for unary minus: list"
    | .either => .ok (.pair (generate_goal 0) (generate_goal 1))

/-- The axis-aligned proximity test of `step` (lines 103 and 108):
both coordinate distances strictly below `0.75 * zoom_coef`. -/
def reached (pos g : Vec2) : Bool :=
  decide (|pos.x - g.x| < 0.75 * zoom_coef) && decide (|pos.y - g.y| < 0.75 * zoom_coef)

/-- Lines 100-111 of `step`: starting from `reward = 0`, check the active
goals.  In the single-goal branch the Python code executes
`reward += self.reward_scales`, adding the whole list to the integer 0,
which raises a type error before `self.done` is assigned.  In the
two-goal branch the first goal (list order) that passes the proximity test
contributes its scalar `reward_scales[i]` and sets done; `break` stops the
scan.  Returns the pair (reward, done). -/
def computeGoalReward (goal : GoalSet) (pos : Vec2) (scales : List ℚ) (done0 : Bool) :
    Except String (ℚ × Bool) :=
  match goal with
  | .single g =>
    if reached pos g then
      .error "TypeError: unsupported operand types for int += list"
    else
      .ok (0, done0)
  | .pair g0 g1 =>
    if reached pos g0 then
      match scales[0]? with
      | some r => .ok (r, true)
      | none => .error "IndexError: list index out of range"
    else if reached pos g1 then
      match scales[1]? with
      | some r => .ok (r, true)
      | none => .error "IndexError: list index out of range"
    else
      .ok (0, done0)

/-- Python `max` over a list: a value error on the empty list, otherwise the
maximum of its elements. -/
def pyMax : List ℚ → Except String ℚ
  | [] => .error "ValueError: max arg is an empty sequence"
  | r :: rs => .ok (rs.foldl max r)

/-- Lines 113-114 of `step`: `if collision and reward < max(self.reward_scales):
reward -= self.collision_punishment`. -/
def applyCollisionPunishment (collision : Bool) (reward : ℚ) (scales : List ℚ)
    (punishment : ℚ) : Except String ℚ :=
  if collision then
    match pyMax scales with
    | .error e => .error e
    | .ok m => if reward < m then .ok (reward - punishment) else .ok reward
  else
    .ok reward

/-- The returned info dictionary, with the two keys the code ever stores:
`ob` (the raw proprioceptive vector) and `vision` (the vision tensor). -/
structure Info (O V : Type) where
  ob : Option O
  vision : Option V
deriving DecidableEq

/-- Lines 122-129 of `step`: in vision mode the returned info is
`{"ob": ob}`; in both mode it is the empty `dict()`; in the remaining
(proprioceptive) mode it is `{"vision": vision}`. -/
def mkInfo {O V : Type} (mode : ObsMode) (ob : O) (vision : V) : Info O V :=
  match mode with
  | .vision => ⟨some ob, none⟩
  | .both => ⟨none, none⟩
  | .proprio => ⟨none, some vision⟩

/-- Fixed configuration of the environment relevant to `step`. -/
structure Config where
  obs : ObsMode
  reward_scales : List ℚ
  collision_punishment : ℚ
deriving DecidableEq

/-- The tuple `(reward, done, truncated, info)` returned by `step` alongside
the observation; `truncated` is the literal `False` in all three return
statements. -/
structure StepResult (O V : Type) where
  reward : ℚ
  done : Bool
  truncated : Bool
  info : Info O V
deriving DecidableEq

/-- The decision core of `step` (lines 98-129), after the physics rollout:
given the collision flag accumulated over the action repeats, the vehicle
position read back from the car, and the observation artefacts, compute the
returned reward, done and truncated flags and the returned info. -/
def step {O V : Type} (cfg : Config) (goal : GoalSet) (done0 : Bool) (collision : Bool)
    (pos : Vec2) (ob : O) (vision : V) : Except String (StepResult O V) :=
  match computeGoalReward goal pos cfg.reward_scales done0 with
  | .error e => .error e
  | .ok (base, d) =>
    match applyCollisionPunishment collision base cfg.reward_scales cfg.collision_punishment with
    | .error e => .error e
    | .ok reward => .ok ⟨reward, d, false, mkInfo cfg.obs ob vision⟩

/-- Whether any active goal passes the proximity test. -/
def reachedAny (goal : GoalSet) (pos : Vec2) : Bool :=
  match goal with
  | .single g => reached pos g
  | .pair g0 g1 => reached pos g0 || reached pos g1

/-! ### The panorama stitching of `render` (lines 322-425)

A camera capture after the 16x16 resize is a 16x16 grid of pixels; a pixel
is its list of channel values (four channels RGBA for a colour capture, one
for a depth-sensory capture).  `np.concatenate(..., axis=1)` concatenates
column ranges, `[:, 8:]` and `[:, :8]` slice columns, `[:, :, :3]` takes
the first three channels, `[..., None]` wraps a scalar into a
one-channel pixel, and `np.concatenate(..., axis=-1)` appends channel
lists pixelwise. -/

/-- A pixel: the list of its channel values. -/
abbrev Pixel := List ℚ

/-- An image with `r` rows and `c` columns of pixels. -/
abbrev Image (r c : Nat) := Fin r → Fin c → Pixel

/-- A single-channel (depth) buffer. -/
abbrev DepthImage (r c : Nat) := Fin r → Fin c → ℚ

/-- `np.concatenate((a, b), axis=1)`: horizontal concatenation. -/
def catCols {r c1 c2 : Nat} (a : Image r c1) (b : Image r c2) : Image r (c1 + c2) :=
  fun i j =>
    if h : j.val < c1 then a i ⟨j.val, h⟩
    else b i ⟨j.val - c1, by have := j.isLt; omega⟩

/-- `frame[:, 8:]`: drop the first 8 columns of a 16-column image. -/
def colsFrom8 {r : Nat} (a : Image r 16) : Image r 8 :=
  fun i j => a i ⟨j.val + 8, by have := j.isLt; omega⟩

/-- `frame[:, :8]`: keep the first 8 columns of a 16-column image. -/
def colsTo8 {r : Nat} (a : Image r 16) : Image r 8 :=
  fun i j => a i ⟨j.val, by have := j.isLt; omega⟩

/-- `frame[:, :, :3]`: keep the first three channels of every pixel. -/
def rgbSlice {r c : Nat} (a : Image r c) : Image r c :=
  fun i j => (a i j).take 3

/-- `depth_sensory[:, :, None]`: lift a depth buffer to a one-channel image. -/
def depthChan {r c : Nat} (d : DepthImage r c) : Image r c :=
  fun i j => [d i j]

/-- The five-part concatenation used for both the colour panorama and the
depth panorama: `(a3[:, 8:], a2, a, a4, a3[:, :8])` along axis 1, where
`a` is the forward (0 degree) capture, `a2` the 90 degree capture, `a3`
the 180 degree capture and `a4` the 270 degree capture. -/
def stitchWide {r : Nat} (a a2 a3 a4 : Image r 16) : Image r 64 :=
  catCols (catCols (catCols (catCols (colsFrom8 a3) a2) a) a4) (colsTo8 a3)

/-- `np.concatenate((a, b), axis=-1)`: pixelwise channel concatenation. -/
def catChannels {r c : Nat} (a b : Image r c) : Image r c :=
  fun i j => a i j ++ b i j

/-- The number of panorama columns: 8 + 16 + 16 + 16 + 8. -/
def panoramaCols : Nat := 8 + 16 + 16 + 16 + 8

/-- Lines 418-425 of `render`: the stitched colour panorama, with the
depth-sensory panorama appended as an extra channel exactly when
`self.return_depth` holds.  `f` is the forward capture, `f2`, `f3`, `f4`
the 90, 180, 270 degree captures; `d .. d4` the matching depth-sensory
buffers after the 16x16 resize. -/
def renderPanorama (return_depth : Bool) (f f2 f3 f4 : Image 16 16)
    (d d2 d3 d4 : DepthImage 16 16) : Image 16 64 :=
  if return_depth then
    catChannels (stitchWide (rgbSlice f) (rgbSlice f2) (rgbSlice f3) (rgbSlice f4))
      (stitchWide (depthChan d) (depthChan d2) (depthChan d3) (depthChan d4))
  else
    stitchWide (rgbSlice f) (rgbSlice f2) (rgbSlice f3) (rgbSlice f4)

/-- The vision observation-space shape declared in `__init__` (lines 33-36):
`[4 if return_depth else 3, 16, 64]`. -/
def obsSpaceShapeVision (return_depth : Bool) : Nat × Nat × Nat :=
  (if return_depth then 4 else 3, 16, 64)

/-- The shape of the vision tensor actually returned by `reset` and `step`:
`np.swapaxes(np.swapaxes(frame, 0, 2), 1, 2)` turns the 16 x panoramaCols
x channels panorama into channels x 16 x panoramaCols. -/
def visionTensorShape (channels : Nat) : Nat × Nat × Nat :=
  (channels, 16, panoramaCols)

/-! ### The depth-sensory transform of `render` (line 348 and copies) -/

/-- `self.zoom_coef` as a real number, for the depth transform. -/
noncomputable def zoomR : ℝ := 2

/-- `np.exp(- true_depth / self.zoom_coef / 3)` applied to one depth value. -/
noncomputable def depthSensory (true_depth : ℝ) : ℝ :=
  Real.exp (-true_depth / zoomR / 3)

/-- Concrete constant colour capture used as a test pattern: every pixel is
the four-channel list `[v, v, v, v]`. -/
def constFrame (v : ℚ) : Image 16 16 := fun _ _ => [v, v, v, v]

/-- Concrete constant depth-sensory capture. -/
def constDepth (v : ℚ) : DepthImage 16 16 := fun _ _ => v

end TMaze

namespace TMaze

lemma stitchWide_left8 {r : Nat} (a a2 a3 a4 : Image r 16) (i : Fin r) (j : Fin 64)
    (h : j.val < 8) : stitchWide a a2 a3 a4 i j = a3 i ⟨j.val + 8, by omega⟩ := by
  rcases j with ⟨jv, hj⟩
  interval_cases jv <;> rfl

lemma stitchWide_seg90 {r : Nat} (a a2 a3 a4 : Image r 16) (i : Fin r) (j : Fin 64)
    (h1 : 8 ≤ j.val) (h2 : j.val < 24) :
    stitchWide a a2 a3 a4 i j = a2 i ⟨j.val - 8, by omega⟩ := by
  rcases j with ⟨jv, hj⟩
  interval_cases jv <;> rfl

lemma stitchWide_forward {r : Nat} (a a2 a3 a4 : Image r 16) (i : Fin r) (j : Fin 64)
    (h1 : 24 ≤ j.val) (h2 : j.val < 40) :
    stitchWide a a2 a3 a4 i j = a i ⟨j.val - 24, by omega⟩ := by
  rcases j with ⟨jv, hj⟩
  interval_cases jv <;> rfl

lemma stitchWide_seg270 {r : Nat} (a a2 a3 a4 : Image r 16) (i : Fin r) (j : Fin 64)
    (h1 : 40 ≤ j.val) (h2 : j.val < 56) :
    stitchWide a a2 a3 a4 i j = a4 i ⟨j.val - 40, by omega⟩ := by
  rcases j with ⟨jv, hj⟩
  interval_cases jv <;> rfl

lemma stitchWide_right8 {r : Nat} (a a2 a3 a4 : Image r 16) (i : Fin r) (j : Fin 64)
    (h : 56 ≤ j.val) :
    stitchWide a a2 a3 a4 i j = a3 i ⟨j.val - 56, by have := j.isLt; omega⟩ := by
  rcases j with ⟨jv, hj⟩
  interval_cases jv <;> rfl

lemma renderPanorama_apply (rd : Bool) (f f2 f3 f4 : Image 16 16)
    (d d2 d3 d4 : DepthImage 16 16) (i : Fin 16) (j : Fin 64) :
    renderPanorama rd f f2 f3 f4 d d2 d3 d4 i j =
      stitchWide (rgbSlice f) (rgbSlice f2) (rgbSlice f3) (rgbSlice f4) i j ++
        (if rd then
          stitchWide (depthChan d) (depthChan d2) (depthChan d3) (depthChan d4) i j
        else []) := by
  cases rd <;> simp [renderPanorama, catChannels]

lemma renderPanorama_pixel_length (rd : Bool) (f f2 f3 f4 : Image 16 16)
    (d d2 d3 d4 : DepthImage 16 16)
    (hf : ∀ i j, (f i j).length = 4) (hf2 : ∀ i j, (f2 i j).length = 4)
    (hf3 : ∀ i j, (f3 i j).length = 4) (hf4 : ∀ i j, (f4 i j).length = 4) :
    ∀ (i : Fin 16) (j : Fin 64),
      (renderPanorama rd f f2 f3 f4 d d2 d3 d4 i j).length = if rd then 4 else 3 := by
  intro i j
  rw [renderPanorama_apply]
  rcases Nat.lt_or_ge j.val 8 with h | h8
  · rw [stitchWide_left8 (rgbSlice f) (rgbSlice f2) (rgbSlice f3) (rgbSlice f4) i j h,
      stitchWide_left8 (depthChan d) (depthChan d2) (depthChan d3) (depthChan d4) i j h]
    cases rd <;> simp [rgbSlice, depthChan, hf3]
  · rcases Nat.lt_or_ge j.val 24 with h | h24
    · rw [stitchWide_seg90 (rgbSlice f) (rgbSlice f2) (rgbSlice f3) (rgbSlice f4) i j h8 h,
        stitchWide_seg90 (depthChan d) (depthChan d2) (depthChan d3) (depthChan d4) i j h8 h]
      cases rd <;> simp [rgbSlice, depthChan, hf2]
    · rcases Nat.lt_or_ge j.val 40 with h | h40
      · rw [stitchWide_forward (rgbSlice f) (rgbSlice f2) (rgbSlice f3) (rgbSlice f4) i j h24 h,
          stitchWide_forward (depthChan d) (depthChan d2) (depthChan d3) (depthChan d4) i j h24 h]
        cases rd <;> simp [rgbSlice, depthChan, hf]
      · rcases Nat.lt_or_ge j.val 56 with h | h56
        · rw [stitchWide_seg270 (rgbSlice f) (rgbSlice f2) (rgbSlice f3) (rgbSlice f4) i j h40 h,
            stitchWide_seg270 (depthChan d) (depthChan d2) (depthChan d3) (depthChan d4) i j h40 h]
          cases rd <;> simp [rgbSlice, depthChan, hf4]
        · rw [stitchWide_right8 (rgbSlice f) (rgbSlice f2) (rgbSlice f3) (rgbSlice f4) i j h56,
            stitchWide_right8 (depthChan d) (depthChan d2) (depthChan d3) (depthChan d4) i j h56]
          cases rd <;> simp [rgbSlice, depthChan, hf3]

lemma step_ok_elim {O V : Type} {cfg : Config} {goal : GoalSet} {done0 collision : Bool}
    {pos : Vec2} {ob : O} {vision : V} {out : StepResult O V}
    (h : step cfg goal done0 collision pos ob vision = .ok out) :
    ∃ base d reward,
      computeGoalReward goal pos cfg.reward_scales done0 = .ok (base, d) ∧
      applyCollisionPunishment collision base cfg.reward_scales cfg.collision_punishment =
        .ok reward ∧
      out = ⟨reward, d, false, mkInfo cfg.obs ob vision⟩ := by
  unfold step at h
  split at h
  · simp at h
  · rename_i base d heq
    split at h
    · simp at h
    · rename_i reward hap
      simp only [Except.ok.injEq] at h
      exact ⟨base, d, reward, heq, hap, h.symm⟩

lemma computeGoalReward_done_false {goal : GoalSet} {pos : Vec2} {scales : List ℚ}
    {base : ℚ} {d : Bool}
    (h : computeGoalReward goal pos scales false = .ok (base, d)) :
    d = reachedAny goal pos := by
  cases goal with
  | single g =>
    cases hr : reached pos g with
    | true => simp [computeGoalReward, hr] at h
    | false =>
      simp [computeGoalReward, hr] at h
      obtain ⟨h1, h2⟩ := h
      subst h2
      simp [reachedAny, hr]
  | pair g0 g1 =>
    cases hr0 : reached pos g0 with
    | true =>
      cases hs : scales[0]? with
      | none => simp [computeGoalReward, hr0, hs] at h
      | some r =>
        simp [computeGoalReward, hr0, hs] at h
        obtain ⟨h1, h2⟩ := h
        subst h2
        simp [reachedAny, hr0]
    | false =>
      cases hr1 : reached pos g1 with
      | true =>
        cases hs : scales[1]? with
        | none => simp [computeGoalReward, hr0, hr1, hs] at h
        | some r =>
          simp [computeGoalReward, hr0, hr1, hs] at h
          obtain ⟨h1, h2⟩ := h
          subst h2
          simp [reachedAny, hr0, hr1]
      | false =>
        simp [computeGoalReward, hr0, hr1] at h
        obtain ⟨h1, h2⟩ := h
        subst h2
        simp [reachedAny, hr0, hr1]

lemma applyCollisionPunishment_ok {collision : Bool} {base m reward punishment : ℚ}
    {scales : List ℚ}
    (hm : pyMax scales = .ok m)
    (hap : applyCollisionPunishment collision base scales punishment = .ok reward) :
    reward = if collision = true ∧ base < m then base - punishment else base := by
  unfold applyCollisionPunishment at hap
  cases collision with
  | false =>
    simp at hap
    simp [hap]
  | true =>
    rw [hm] at hap
    by_cases hlt : base < m
    · simp [hlt] at hap
      subst hap
      simp [hlt]
    · simp [hlt] at hap
      subst hap
      simp [hlt]

/-- C1 (code bug): with a single active goal whose proximity test passes,
the claim expects `step` to return that goal reward scale with done set;
the code instead executes `reward += self.reward_scales`, adding the whole
list to the integer 0, and raises a type error at exactly that input. -/
theorem c1_single_goal_reach_raises :
    step (O := Unit) (V := Unit) ⟨.vision, [1000, 1000], 1⟩ (.single (generate_goal 0))
      false false ⟨-6.5, 5.5⟩ () () =
    .error "TypeError: unsupported operand types for int += list" := by
  norm_num [step, computeGoalReward, reached, zoom_coef, generate_goal]

/-- C3: the goal-reach test holds exactly when both coordinate distances are
strictly below `0.75 * zoom_coef`; with `zoom_coef = 2`, an x offset of
`0.5 * zoom_coef` passes (goal reward awarded, done true, in the two-goal
configuration) and an offset of `1.0 * zoom_coef` fails (no reward, done
stays false). -/
theorem c3_proximity_threshold :
    (∀ pos g : Vec2, reached pos g = true ↔
        |pos.x - g.x| < 0.75 * zoom_coef ∧ |pos.y - g.y| < 0.75 * zoom_coef) ∧
    (∀ g : Vec2, reached ⟨g.x + 0.5 * zoom_coef, g.y⟩ g = true) ∧
    (∀ g : Vec2, reached ⟨g.x + 1 * zoom_coef, g.y⟩ g = false) ∧
    step (O := Unit) (V := Unit) ⟨.vision, [1000, 1000], 1⟩
        (.pair (generate_goal 0) (generate_goal 1)) false false
        ⟨(generate_goal 0).x + 0.5 * zoom_coef, (generate_goal 0).y⟩ () () =
      .ok ⟨1000, true, false, ⟨some (), none⟩⟩ ∧
    step (O := Unit) (V := Unit) ⟨.vision, [1000, 1000], 1⟩
        (.pair (generate_goal 0) (generate_goal 1)) false false
        ⟨(generate_goal 0).x + 1 * zoom_coef, (generate_goal 0).y⟩ () () =
      .ok ⟨0, false, false, ⟨some (), none⟩⟩ := by
  refine ⟨?_, ?_, ?_, ?_, ?_⟩
  · intro pos g
    simp [reached]
  · intro g
    have h1 : g.x + 0.5 * zoom_coef - g.x = (1 : ℚ) := by rw [zoom_coef]; ring
    norm_num [reached, h1, zoom_coef]
  · intro g
    have h1 : g.x + 1 * zoom_coef - g.x = (2 : ℚ) := by rw [zoom_coef]; ring
    norm_num [reached, h1, zoom_coef]
  · norm_num [step, computeGoalReward, reached, zoom_coef, generate_goal,
      applyCollisionPunishment, pyMax, mkInfo]
  · norm_num [step, computeGoalReward, reached, zoom_coef, generate_goal,
      applyCollisionPunishment, pyMax, mkInfo]

/-- C4: on a successful step, the collision punishment is subtracted from
the goal reward exactly when a collision occurred and the awarded reward is
strictly below the maximum configured reward scale. -/
theorem c4_collision_punishment_condition :
    ∀ {O V : Type} (cfg : Config) (goal : GoalSet) (done0 collision : Bool) (pos : Vec2)
      (ob : O) (vision : V) (base : ℚ) (d : Bool) (m : ℚ) (out : StepResult O V),
      computeGoalReward goal pos cfg.reward_scales done0 = .ok (base, d) →
      pyMax cfg.reward_scales = .ok m →
      step cfg goal done0 collision pos ob vision = .ok out →
      out.reward =
        if collision = true ∧ base < m then base - cfg.collision_punishment else base := by
  intro O V cfg goal done0 collision pos ob vision base d m out hg hm hs
  obtain ⟨base2, d2, reward, hg2, hap, hout⟩ := step_ok_elim hs
  rw [hg] at hg2
  simp only [Except.ok.injEq, Prod.mk.injEq] at hg2
  obtain ⟨hb, hd⟩ := hg2
  subst hb
  subst hout
  exact applyCollisionPunishment_ok hm hap

/-- C4 witness: collision while away from both goals with scales
`[1000, 1000]` and punishment `1` yields reward `0 - 1`. -/
theorem c4_collision_punishment_condition_witness :
    (StepResult.reward (O := Unit) (V := Unit) ⟨0 - 1, false, false, ⟨some (), none⟩⟩) =
      if (true = true) ∧ (0 : ℚ) < 1000 then 0 - 1 else 0 :=
  c4_collision_punishment_condition ⟨.vision, [1000, 1000], 1⟩
    (.pair (generate_goal 0) (generate_goal 1)) false true ⟨0, -5⟩ () () 0 false 1000
    ⟨0 - 1, false, false, ⟨some (), none⟩⟩
    (by norm_num [computeGoalReward, reached, generate_goal, zoom_coef, abs_lt])
    (by simp [pyMax])
    (by norm_num [step, computeGoalReward, reached, generate_goal, zoom_coef,
      applyCollisionPunishment, pyMax, mkInfo, abs_lt])

/-- C5 counterexample: in observation mode `both`, the returned info is the
empty dictionary; it carries neither the proprioceptive vector nor the
vision tensor, contrary to the claim that info always carries the
proprioceptive vector. -/
theorem c5_info_counterexample :
    step (O := Unit) (V := Unit) ⟨.both, [1000, 1000], 1⟩
      (.pair (generate_goal 0) (generate_goal 1)) false false ⟨0, -5⟩ () () =
    .ok ⟨0, false, false, ⟨none, none⟩⟩ := by
  norm_num [step, computeGoalReward, reached, generate_goal, zoom_coef,
    applyCollisionPunishment, mkInfo, abs_lt]

/-- C5 (amended): the info returned by a successful step carries exactly the
proprioceptive vector in vision mode, nothing in both mode, and exactly the
vision tensor in proprioceptive mode. -/
theorem c5_info_by_mode :
    ∀ {O V : Type} (cfg : Config) (goal : GoalSet) (done0 collision : Bool) (pos : Vec2)
      (ob : O) (vision : V) (out : StepResult O V),
      step cfg goal done0 collision pos ob vision = .ok out →
      (cfg.obs = .vision → out.info = ⟨some ob, none⟩) ∧
      (cfg.obs = .both → out.info = ⟨none, none⟩) ∧
      (cfg.obs = .proprio → out.info = ⟨none, some vision⟩) := by
  intro O V cfg goal done0 collision pos ob vision out hs
  obtain ⟨base, d, reward, hg, hap, hout⟩ := step_ok_elim hs
  subst hout
  refine ⟨?_, ?_, ?_⟩ <;> intro hobs <;> simp [mkInfo, hobs]

/-- C5 witness: a successful vision-mode step whose info holds the
proprioceptive vector. -/
theorem c5_info_by_mode_witness :
    (StepResult.info (O := Unit) (V := Unit) ⟨0, false, false, ⟨some (), none⟩⟩) =
      ⟨some (), none⟩ :=
  (c5_info_by_mode ⟨.vision, [1000, 1000], 1⟩ (.pair (generate_goal 0) (generate_goal 1))
    false false ⟨0, -5⟩ () () ⟨0, false, false, ⟨some (), none⟩⟩
    (by norm_num [step, computeGoalReward, reached, generate_goal, zoom_coef,
      applyCollisionPunishment, mkInfo, abs_lt])).1 rfl

/-- C6: the depth-sensory transform `exp(-d / zoom_coef / 3)` is strictly
decreasing, strictly positive everywhere, at most 1 on nonnegative depths,
and exactly 1 at depth 0. -/
theorem c6_depth_sensory_properties :
    StrictAnti depthSensory ∧ (∀ t : ℝ, 0 < depthSensory t) ∧
      (∀ t : ℝ, 0 ≤ t → depthSensory t ≤ 1) ∧ depthSensory 0 = 1 := by
  refine ⟨?_, ?_, ?_, ?_⟩
  · intro a b hab
    unfold depthSensory zoomR
    apply Real.exp_lt_exp.mpr
    linarith
  · intro t
    exact Real.exp_pos _
  · intro t ht
    unfold depthSensory zoomR
    calc Real.exp (-t / 2 / 3) ≤ Real.exp 0 := Real.exp_le_exp.mpr (by linarith)
    _ = 1 := Real.exp_zero
  · unfold depthSensory zoomR
    norm_num

/-- C6 witness: the transform at depths 0 and 1. -/
theorem c6_depth_sensory_properties_witness :
    depthSensory 1 < depthSensory 0 ∧ 0 < depthSensory 1 ∧ depthSensory 1 ≤ 1 :=
  ⟨c6_depth_sensory_properties.1 (by norm_num),
    c6_depth_sensory_properties.2.1 1,
    c6_depth_sensory_properties.2.2.1 1 (by norm_num)⟩

/-- C7: under the switching policy with no explicit goal index, the goal
chosen at the next reset negates the x coordinate of the previous goal and
keeps its y coordinate; for the canonical goals the x coordinates are
nonzero, so the sign flips. -/
theorem c7_switching_mirrors_goal :
    (∀ (rngDraw : Fin 2) (gx gy : ℚ),
      selectGoal .switching none rngDraw (some (.single ⟨gx, gy⟩)) =
        .ok (.single ⟨-gx, gy⟩)) ∧
    (generate_goal 0).x < 0 ∧ 0 < -(generate_goal 0).x ∧
    0 < (generate_goal 1).x ∧ -(generate_goal 1).x < 0 := by
  refine ⟨fun _ _ _ => rfl, ?_, ?_, ?_, ?_⟩ <;> norm_num [generate_goal, zoom_coef]

/-- C8: in a running episode (done not yet set), a successful step reports
done exactly when some active goal passes the proximity test, and always
reports truncated false; the collision flag plays no role in either. -/
theorem c8_done_only_by_goal :
    ∀ {O V : Type} (cfg : Config) (goal : GoalSet) (collision : Bool) (pos : Vec2)
      (ob : O) (vision : V) (out : StepResult O V),
      step cfg goal false collision pos ob vision = .ok out →
      (out.done = true ↔ reachedAny goal pos = true) ∧ out.truncated = false := by
  intro O V cfg goal collision pos ob vision out hs
  obtain ⟨base, d, reward, hg, hap, hout⟩ := step_ok_elim hs
  subst hout
  have hd := computeGoalReward_done_false hg
  simp [hd]

/-- C8 witness: a step that reaches the left goal reports done, and
truncated is false. -/
theorem c8_done_only_by_goal_witness :
    ((StepResult.done (O := Unit) (V := Unit) ⟨1000, true, false, ⟨some (), none⟩⟩) = true ↔
      reachedAny (.pair (generate_goal 0) (generate_goal 1)) ⟨-6.5, 5.5⟩ = true) ∧
    (StepResult.truncated (O := Unit) (V := Unit) ⟨1000, true, false, ⟨some (), none⟩⟩) =
      false :=
  c8_done_only_by_goal ⟨.vision, [1000, 1000], 1⟩ (.pair (generate_goal 0) (generate_goal 1))
    false ⟨-6.5, 5.5⟩ () () ⟨1000, true, false, ⟨some (), none⟩⟩
    (by norm_num [step, computeGoalReward, reached, generate_goal, zoom_coef,
      applyCollisionPunishment, pyMax, mkInfo, abs_lt])

/-- C10: in switching mode with no explicit goal index and no previously
stored goal position - the state of the very first reset, which the
constructor invokes - goal selection fails with an attribute error. -/
theorem c10_switching_first_reset_fails :
    ∀ rngDraw : Fin 2,
      selectGoal .switching none rngDraw none =
        .error "AttributeError: TMazeEnv object has no attribute goal_position" :=
  fun _ => rfl

/-- C2 counterexample: the stitched panorama has 64 columns, not 80, and its
columns 32:48 are not the forward capture (column 47 shows the 270 degree
capture): with constant test frames, the pixel at column 47 differs from
the forward-capture pixel the claim places there. -/
theorem c2_stitch_counterexample :
    panoramaCols ≠ 80 ∧
    renderPanorama false (constFrame 1) (constFrame 2) (constFrame 3) (constFrame 4)
        (constDepth 1) (constDepth 1) (constDepth 1) (constDepth 1) 0 ⟨47, by omega⟩ ≠
      (constFrame 1 0 ⟨15, by omega⟩).take 3 := by
  constructor
  · decide
  · have hL : renderPanorama false (constFrame 1) (constFrame 2) (constFrame 3) (constFrame 4)
        (constDepth 1) (constDepth 1) (constDepth 1) (constDepth 1) 0 ⟨47, by omega⟩ =
        [(4 : ℚ), 4, 4] := rfl
    have hR : (constFrame 1 0 ⟨15, by omega⟩).take 3 = [(1 : ℚ), 1, 1] := rfl
    rw [hL, hR]
    norm_num

/-- C2 (amended): the panorama is the left-to-right concatenation of
columns 8:16 of the 180 degree frame, the full 90 degree frame, the full
forward frame, the full 270 degree frame and columns 0:8 of the 180 degree
frame - a 16 x 64 image whose central 16 columns (24:40) equal the forward
capture and whose rear capture is split across columns 0:8 and 56:64, with
the depth-sensory composite appended as a fourth channel exactly when
return_depth is set. -/
theorem c2_panorama_stitch_layout :
    ∀ (rd : Bool) (f f2 f3 f4 : Image 16 16) (d d2 d3 d4 : DepthImage 16 16),
      (∀ i j, (f i j).length = 4) → (∀ i j, (f2 i j).length = 4) →
      (∀ i j, (f3 i j).length = 4) → (∀ i j, (f4 i j).length = 4) →
      panoramaCols = 64 ∧
      (∀ (i : Fin 16) (j : Fin 64) (h : j.val < 8),
        renderPanorama rd f f2 f3 f4 d d2 d3 d4 i j =
          (f3 i ⟨j.val + 8, by omega⟩).take 3 ++
            (if rd then [d3 i ⟨j.val + 8, by omega⟩] else [])) ∧
      (∀ (i : Fin 16) (j : Fin 64) (h1 : 8 ≤ j.val) (h2 : j.val < 24),
        renderPanorama rd f f2 f3 f4 d d2 d3 d4 i j =
          (f2 i ⟨j.val - 8, by omega⟩).take 3 ++
            (if rd then [d2 i ⟨j.val - 8, by omega⟩] else [])) ∧
      (∀ (i : Fin 16) (j : Fin 64) (h1 : 24 ≤ j.val) (h2 : j.val < 40),
        renderPanorama rd f f2 f3 f4 d d2 d3 d4 i j =
          (f i ⟨j.val - 24, by omega⟩).take 3 ++
            (if rd then [d i ⟨j.val - 24, by omega⟩] else [])) ∧
      (∀ (i : Fin 16) (j : Fin 64) (h1 : 40 ≤ j.val) (h2 : j.val < 56),
        renderPanorama rd f f2 f3 f4 d d2 d3 d4 i j =
          (f4 i ⟨j.val - 40, by omega⟩).take 3 ++
            (if rd then [d4 i ⟨j.val - 40, by omega⟩] else [])) ∧
      (∀ (i : Fin 16) (j : Fin 64) (h : 56 ≤ j.val),
        renderPanorama rd f f2 f3 f4 d d2 d3 d4 i j =
          (f3 i ⟨j.val - 56, by have := j.isLt; omega⟩).take 3 ++
            (if rd then [d3 i ⟨j.val - 56, by have := j.isLt; omega⟩] else [])) ∧
      (∀ i j, (renderPanorama rd f f2 f3 f4 d d2 d3 d4 i j).length =
        if rd then 4 else 3) := by
  intro rd f f2 f3 f4 d d2 d3 d4 hf hf2 hf3 hf4
  refine ⟨rfl, ?_, ?_, ?_, ?_, ?_,
    renderPanorama_pixel_length rd f f2 f3 f4 d d2 d3 d4 hf hf2 hf3 hf4⟩
  · intro i j h
    rw [renderPanorama_apply,
      stitchWide_left8 (rgbSlice f) (rgbSlice f2) (rgbSlice f3) (rgbSlice f4) i j h,
      stitchWide_left8 (depthChan d) (depthChan d2) (depthChan d3) (depthChan d4) i j h]
    cases rd <;> rfl
  · intro i j h1 h2
    rw [renderPanorama_apply,
      stitchWide_seg90 (rgbSlice f) (rgbSlice f2) (rgbSlice f3) (rgbSlice f4) i j h1 h2,
      stitchWide_seg90 (depthChan d) (depthChan d2) (depthChan d3) (depthChan d4) i j h1 h2]
    cases rd <;> rfl
  · intro i j h1 h2
    rw [renderPanorama_apply,
      stitchWide_forward (rgbSlice f) (rgbSlice f2) (rgbSlice f3) (rgbSlice f4) i j h1 h2,
      stitchWide_forward (depthChan d) (depthChan d2) (depthChan d3) (depthChan d4) i j h1 h2]
    cases rd <;> rfl
  · intro i j h1 h2
    rw [renderPanorama_apply,
      stitchWide_seg270 (rgbSlice f) (rgbSlice f2) (rgbSlice f3) (rgbSlice f4) i j h1 h2,
      stitchWide_seg270 (depthChan d) (depthChan d2) (depthChan d3) (depthChan d4) i j h1 h2]
    cases rd <;> rfl
  · intro i j h
    rw [renderPanorama_apply,
      stitchWide_right8 (rgbSlice f) (rgbSlice f2) (rgbSlice f3) (rgbSlice f4) i j h,
      stitchWide_right8 (depthChan d) (depthChan d2) (depthChan d3) (depthChan d4) i j h]
    cases rd <;> rfl

/-- C2 witness: with constant test frames and depth buffers, the leftmost
panorama pixel equals the rear-capture pixel at column 8 with its
depth-sensory value appended. -/
theorem c2_panorama_stitch_layout_witness :
    renderPanorama true (constFrame 1) (constFrame 2) (constFrame 3) (constFrame 4)
        (constDepth 5) (constDepth 6) (constDepth 7) (constDepth 8) 0 ⟨0, by decide⟩ =
      (constFrame 3 0 ⟨8, by decide⟩).take 3 ++
        (if true then [constDepth 7 0 ⟨8, by decide⟩] else []) :=
  (c2_panorama_stitch_layout true (constFrame 1) (constFrame 2) (constFrame 3) (constFrame 4)
      (constDepth 5) (constDepth 6) (constDepth 7) (constDepth 8)
      (fun _ _ => rfl) (fun _ _ => rfl) (fun _ _ => rfl) (fun _ _ => rfl)).2.1
    0 ⟨0, by decide⟩ (by decide)

/-- C9 counterexample: the vision observation actually has 64 columns -
matching the declared observation space - not 80 as the claim asserts. -/
theorem c9_shape_counterexample :
    (renderPanorama false (constFrame 1) (constFrame 1) (constFrame 1) (constFrame 1)
        (constDepth 1) (constDepth 1) (constDepth 1) (constDepth 1) 0 ⟨0, by decide⟩).length =
      3 ∧
    panoramaCols = 64 ∧ obsSpaceShapeVision false = (3, 16, 64) ∧ panoramaCols ≠ 80 :=
  ⟨rfl, rfl, rfl, by decide⟩

/-- C9 (amended): the channel count of every returned vision pixel and the
spatial extent of the panorama agree with the observation space declared at
construction: both are (4 if return_depth else 3) x 16 x 64. -/
theorem c9_vision_shape_matches_declared :
    ∀ (rd : Bool) (f f2 f3 f4 : Image 16 16) (d d2 d3 d4 : DepthImage 16 16),
      (∀ i j, (f i j).length = 4) → (∀ i j, (f2 i j).length = 4) →
      (∀ i j, (f3 i j).length = 4) → (∀ i j, (f4 i j).length = 4) →
      (∀ i j, (renderPanorama rd f f2 f3 f4 d d2 d3 d4 i j).length =
        (obsSpaceShapeVision rd).1) ∧
      visionTensorShape (obsSpaceShapeVision rd).1 = obsSpaceShapeVision rd := by
  intro rd f f2 f3 f4 d d2 d3 d4 hf hf2 hf3 hf4
  constructor
  · intro i j
    rw [renderPanorama_pixel_length rd f f2 f3 f4 d d2 d3 d4 hf hf2 hf3 hf4 i j]
    cases rd <;> rfl
  · cases rd <;> rfl

/-- C9 witness: with concrete frames and no depth channel, the pixel channel
count equals the declared channel count and the tensor shape equals the
declared shape. -/
theorem c9_vision_shape_matches_declared_witness :
    ((renderPanorama false (constFrame 1) (constFrame 2) (constFrame 3) (constFrame 4)
        (constDepth 1) (constDepth 1) (constDepth 1) (constDepth 1) 0 ⟨0, by decide⟩).length =
      (obsSpaceShapeVision false).1) ∧
    visionTensorShape (obsSpaceShapeVision false).1 = obsSpaceShapeVision false :=
  ⟨(c9_vision_shape_matches_declared false (constFrame 1) (constFrame 2) (constFrame 3)
      (constFrame 4) (constDepth 1) (constDepth 1) (constDepth 1) (constDepth 1)
      (fun _ _ => rfl) (fun _ _ => rfl) (fun _ _ => rfl) (fun _ _ => rfl)).1 0 ⟨0, by decide⟩,
    (c9_vision_shape_matches_declared false (constFrame 1) (constFrame 2) (constFrame 3)
      (constFrame 4) (constDepth 1) (constDepth 1) (constDepth 1) (constDepth 1)
      (fun _ _ => rfl) (fun _ _ => rfl) (fun _ _ => rfl) (fun _ _ => rfl)).2⟩

end TMaze
